import Mathlib

/-!
Verification of `PythonExample/simple_example.py` from the
`a1052_sdk_examples` repository.

The script is orchestration glue around a closed vendor SDK.  We embed it
shallowly: each function of the script becomes a pure Lean function from an
explicit environment (the outcomes of the external collaborators: the
filesystem, the .NET reflection layer, and every vendor SDK call, each of
which may raise an exception) to a trace of observable events together with
the function's outcome (a returned value or a propagated exception).
Exceptions are carried as their message strings.
-/

deriving instance DecidableEq for Except

namespace A1052

/-! ## `load_sdk_dlls` (simple_example.py lines 14-41) -/

/-- Observable events of `load_sdk_dlls`: logger calls and `clr.AddReference`
calls (the only way the script references an SDK binary). -/
inductive LEv where
  | logWarning (msg : String)
  | logError (msg : String)
  | addReference (dll : String)
  deriving DecidableEq, Repr

/-- The exception type raised by `load_sdk_dlls`. -/
inductive LoadExn where
  | fileNotFoundError (msg : String)
  deriving DecidableEq, Repr

/-- The filesystem / OS environment seen by `load_sdk_dlls`:
`os.path.isabs`, `os.path.exists`, `os.path.join`, the directory of the
script file (`os.path.dirname` applied to the file path), and the process
working directory.  The working directory is part of the environment so
that independence from it can be stated; the script never consults it. -/
structure FsEnv where
  isAbs : String → Bool
  pathExists : String → Bool
  join : String → String → String
  scriptDir : String
  cwd : String

/-- Replace the working directory of an `FsEnv`. -/
def FsEnv.withCwd (env : FsEnv) (c : String) : FsEnv :=
  ⟨env.isAbs, env.pathExists, env.join, env.scriptDir, c⟩

/-- Lines 24-28: a relative folder path is resolved against the directory
containing the script file; an absolute path is used unchanged. -/
def resolvedPath (env : FsEnv) (sdk_folder_path : String) : String :=
  if env.isAbs sdk_folder_path then sdk_folder_path
  else env.join env.scriptDir sdk_folder_path

/-- Lines 14-41 of the script.  Returns the trace of logger /
`clr.AddReference` events and `some exn` when the call raises. -/
def load_sdk_dlls (env : FsEnv) (sdk_folder_path : String) :
    List LEv × Option LoadExn :=
  let warn : List LEv :=
    if env.isAbs sdk_folder_path then []
    else [LEv.logWarning ("SDK folder path is relative: " ++ sdk_folder_path
      ++ ". Trying to resolve it relative to the current file.")]
  let resolved := resolvedPath env sdk_folder_path
  if env.pathExists resolved then
    (warn ++ [LEv.addReference (env.join resolved "A10x_SDK.dll"),
      LEv.addReference (env.join resolved "Microsoft.Extensions.Logging.Abstractions.dll"),
      LEv.addReference (env.join resolved "Microsoft.Extensions.DependencyInjection.Abstractions.dll"),
      LEv.addReference (env.join resolved "System.Diagnostics.DiagnosticSource.dll")],
     none)
  else
    (warn ++ [LEv.logError ("Dependencies directory does not exist: " ++ resolved)],
     some (LoadExn.fileNotFoundError ("Dependencies directory not found: " ++ resolved)))

/-! ## `check_sdk_version` (lines 51-67) and the module-level check (lines 76-78) -/

/-- Observable logger events of the version check. -/
inductive VEv where
  | logInfo (msg : String)
  | logWarning (msg : String)
  | logError (msg : String)
  deriving DecidableEq, Repr

/-- The reflection environment of `check_sdk_version`: either the assembly
metadata lookup (lines 55-56) raises, or it yields the three numeric
version components. -/
structure VersionEnv where
  reflectionExn : Option String
  major : Nat
  minor : Nat
  build : Nat

/-- Lexicographic comparison of character lists by code point, the order
Python uses for `str < str`. -/
def strLtb : List Char → List Char → Bool
  | [], [] => false
  | [], _ :: _ => true
  | _ :: _, [] => false
  | a :: as, b :: bs =>
    if a < b then true
    else if b < a then false
    else strLtb as bs

/-- Python's `<` on strings: lexicographic by code point. -/
def pyStrLt (a b : String) : Bool := strLtb a.data b.data

/-- Line 57: the version string rendered from the assembly components. -/
def version_str (env : VersionEnv) : String :=
  toString env.major ++ "." ++ toString env.minor ++ "." ++ toString env.build

/-- The try-block body of `check_sdk_version` (lines 54-64): reflection
lookup, logging, the lexical `<` comparison of the version strings, the
deliberately raised below-minimum exception, and the returned version
string on success. -/
def check_sdk_version_body (env : VersionEnv) (required_version : String) :
    List VEv × Except String String :=
  match env.reflectionExn with
  | some m => ([], Except.error m)
  | none =>
    let vs := version_str env
    let t0 := [VEv.logInfo ("A10x SDK Version: " ++ vs)]
    if pyStrLt vs required_version then
      (t0, Except.error ("SDK version " ++ vs ++ " is below required " ++ required_version))
    else
      (t0, Except.ok vs)

/-- Lines 51-67: the body wrapped in the catch-all handler, which logs the
exception and returns `none`.  The result type has no exception component
because the handler catches every exception of the body. -/
def check_sdk_version (env : VersionEnv) (required_version : String) :
    List VEv × Option String :=
  let b := check_sdk_version_body env required_version
  match b.2 with
  | Except.ok v => (b.1, some v)
  | Except.error m => (b.1 ++ [VEv.logError ("Version check failed: " ++ m)], none)

/-- Lines 76-78 of the module body: call the version check with required
version "1.0.0" and, when it yields no version, log a warning and keep
going.  Total by construction: the module continues either way. -/
def module_version_check (env : VersionEnv) : List VEv :=
  let r := check_sdk_version env "1.0.0"
  match r.2 with
  | none => r.1 ++ [VEv.logWarning "Cannot verify SDK version. Proceeding with caution..."]
  | some _ => r.1

/-- Modelled from the spec: the numeric component-wise comparison of two
version triples that §9 of the spec contrasts with the script's lexical
string comparison.  `true` when `(a1, a2, a3)` is numerically below
`(b1, b2, b3)`. -/
def spec_numeric_version_lt (a1 a2 a3 b1 b2 b3 : Nat) : Bool :=
  if a1 == b1 then (if a2 == b2 then Nat.blt a3 b3 else Nat.blt a2 b2)
  else Nat.blt a1 b1

/-! ## `has_feature` (lines 43-49) -/

/-- Python exceptions distinguished by `has_feature`. -/
inductive PyErr where
  | attributeError
  deriving DecidableEq, Repr

/-- Line 46: `getattr(A1052SDK, feature_name)`.  The SDK surface is modelled
by the predicate `features`; a lookup of an absent attribute raises
`AttributeError`. -/
def getattr_A1052SDK (features : String → Bool) (name : String) : Except PyErr Unit :=
  if features name then Except.ok () else Except.error PyErr.attributeError

/-- Lines 43-49: probe the SDK surface, converting `AttributeError` to
`false` and a successful lookup to `true`. -/
def has_feature (features : String → Bool) (feature_name : String) : Bool :=
  match getattr_A1052SDK features feature_name with
  | Except.ok _ => true
  | Except.error PyErr.attributeError => false

/-! ## `simple_example` (lines 81-154) -/

/-- Observable events of `simple_example`: each vendor SDK call, the
`has_feature` probe, and the logger calls that punctuate the sequence. -/
inductive Ev where
  | identifyDevice
  | getDeviceInfo
  | createSdk
  | hasFeatureCheck (name : String)
  | connect
  | setGain (db : Nat)
  | setAscanAveraging (n : Nat)
  | setPulseRepetitionRate (hz : Nat)
  | setQuadro8x4Transmitter (idx : Nat)
  | setSingle8x4Transmitter (idx : Nat)
  | subscribeAscanDataReceived
  | startAscanSingleTransmitter
  | sleep (seconds : Nat)
  | stopAcquisition
  | unsubscribeAscanDataReceived
  | disconnect
  | logInfo (msg : String)
  | logWarning (msg : String)
  | logError (msg : String)
  deriving DecidableEq, Repr

/-- The device info record returned by `A10xIdentity.GetDeviceInfo`. -/
structure DeviceInfo where
  serial : String
  mac : String

/-- The behaviour of the external collaborators of `simple_example`:
whether the device answers identification, whether `GetDeviceInfo` raises,
the info it returns, which attributes the SDK surface carries, and for
each vendor call inside the try/finally the exception it raises (if any),
carried as a message string. -/
structure SdkEnv where
  identifyDevice : Bool
  getDeviceInfoExn : Option String
  deviceInfo : DeviceInfo
  features : String → Bool
  connectExn : Option String
  setGainExn : Option String
  setAscanAveragingExn : Option String
  setPulseRepetitionRateExn : Option String
  setQuadro8x4TransmitterExn : Option String
  setSingle8x4TransmitterExn : Option String
  subscribeExn : Option String
  startExn : Option String
  stopExn : Option String
  unsubscribeExn : Option String
  disconnectExn : Option String

/-- Line 86: the hardcoded device address. -/
def device_ip : String := "192.168.137.123"

/-- The statements of the try block (lines 112-145) as a list of pairs:
the event each statement emits and the exception (if any) the environment
makes it raise.  Logging and `time.sleep` never raise. -/
def tryBodyCalls (env : SdkEnv) : List (Ev × Option String) :=
  [ (Ev.connect, env.connectExn),
    (Ev.logInfo "Connected to device", none),
    (Ev.setGain 10, env.setGainExn),
    (Ev.setAscanAveraging 1, env.setAscanAveragingExn),
    (Ev.setPulseRepetitionRate 3, env.setPulseRepetitionRateExn),
    (Ev.setQuadro8x4Transmitter 0, env.setQuadro8x4TransmitterExn),
    (Ev.setSingle8x4Transmitter 0, env.setSingle8x4TransmitterExn),
    (Ev.subscribeAscanDataReceived, env.subscribeExn),
    (Ev.startAscanSingleTransmitter, env.startExn),
    (Ev.logInfo "Started data acquisition...", none),
    (Ev.sleep 5, none),
    (Ev.stopAcquisition, env.stopExn),
    (Ev.logInfo "Stopped data acquisition", none),
    (Ev.unsubscribeAscanDataReceived, env.unsubscribeExn) ]

/-- Run a straight-line statement sequence: each statement emits its event
and then either raises (aborting the rest) or continues. -/
def runCalls : List (Ev × Option String) → List Ev × Option String
  | [] => ([], none)
  | (e, some m) :: _ => ([e], some m)
  | (e, none) :: rest => (e :: (runCalls rest).1, (runCalls rest).2)

/-- Lines 81-154: the full `simple_example` function.  Python semantics of
`try`/`except Exception`/`finally` are made explicit: the handler catches
any body exception, logs it and turns it into `return False`; the finally
step always invokes `Disconnect`, and an exception raised by `Disconnect`
itself supersedes the pending return. -/
def simple_example (env : SdkEnv) : List Ev × Except String Bool :=
  if env.identifyDevice = false then
    ([Ev.identifyDevice, Ev.logError ("Cannot identify device at " ++ device_ip)],
     Except.ok false)
  else
    match env.getDeviceInfoExn with
    | some m => ([Ev.identifyDevice, Ev.getDeviceInfo], Except.error m)
    | none =>
      let pre : List Ev :=
        [Ev.identifyDevice, Ev.getDeviceInfo,
         Ev.logInfo ("Connected to device: Serial=" ++ env.deviceInfo.serial
           ++ ", MAC=" ++ env.deviceInfo.mac),
         Ev.createSdk, Ev.hasFeatureCheck "SetGain"]
      if has_feature env.features "SetGain" = false then
        (pre ++ [Ev.logError "Required feature SetGain is not available in this SDK version."],
         Except.ok false)
      else
        let body := runCalls (tryBodyCalls env)
        let handled : List Ev × Except String Bool :=
          match body.2 with
          | none => ([], Except.ok true)
          | some m => ([Ev.logError ("Error during operation: " ++ m)], Except.ok false)
        let fin : List Ev × Except String Bool :=
          match env.disconnectExn with
          | none => ([Ev.disconnect, Ev.logInfo "Disconnected from device"], handled.2)
          | some d => ([Ev.disconnect], Except.error d)
        (pre ++ body.1 ++ handled.1 ++ fin.1, fin.2)

/-! ## Helper lemmas about straight-line execution -/

/-- Every event in the trace of a straight-line sequence is the event of
one of its statements. -/
theorem runCalls_mem {l : List (Ev × Option String)} {e : Ev}
    (h : e ∈ (runCalls l).1) : e ∈ l.map Prod.fst := by
  induction l with
  | nil => simp [runCalls] at h
  | cons hd tl ih =>
    obtain ⟨ev, exn⟩ := hd
    cases exn with
    | none =>
      simp only [runCalls, List.mem_cons] at h
      rcases h with h | h
      · simp [h]
      · simp [ih h]
    | some m =>
      simp only [runCalls, List.mem_singleton] at h
      simp [h]

/-- The events of the try-block statements, in source order. -/
theorem tryBody_events (env : SdkEnv) :
    (tryBodyCalls env).map Prod.fst =
      [Ev.connect, Ev.logInfo "Connected to device", Ev.setGain 10,
       Ev.setAscanAveraging 1, Ev.setPulseRepetitionRate 3,
       Ev.setQuadro8x4Transmitter 0, Ev.setSingle8x4Transmitter 0,
       Ev.subscribeAscanDataReceived, Ev.startAscanSingleTransmitter,
       Ev.logInfo "Started data acquisition...", Ev.sleep 5,
       Ev.stopAcquisition, Ev.logInfo "Stopped data acquisition",
       Ev.unsubscribeAscanDataReceived] := rfl

/-- No statement of the try block invokes `Disconnect`. -/
theorem disconnect_not_in_body (env : SdkEnv) :
    Ev.disconnect ∉ (runCalls (tryBodyCalls env)).1 := by
  intro h
  have hm := runCalls_mem h
  rw [tryBody_events] at hm
  exact absurd hm (by decide)

/-- Occurrence count of an event in a trace. -/
def countEv : List Ev → Ev → Nat
  | [], _ => 0
  | x :: xs, e => (if x = e then 1 else 0) + countEv xs e

theorem countEv_append (l1 l2 : List Ev) (e : Ev) :
    countEv (l1 ++ l2) e = countEv l1 e + countEv l2 e := by
  induction l1 with
  | nil => simp [countEv]
  | cons x xs ih => simp [countEv, ih, Nat.add_assoc]

theorem countEv_eq_zero : ∀ {l : List Ev} {e : Ev}, e ∉ l → countEv l e = 0
  | [], _, _ => rfl
  | x :: xs, e, h => by
    have hx : ¬ x = e := fun hh => h (hh ▸ List.mem_cons_self x xs)
    have hxs : e ∉ xs := fun hh => h (List.mem_cons_of_mem x hh)
    simp [countEv, hx, countEv_eq_zero hxs]

/-! ## Concrete environments used as witnesses and counterexamples -/

/-- Everything succeeds; the SDK surface has every attribute. -/
def envAllOk : SdkEnv :=
  ⟨true, none, ⟨"SN123", "AA:BB:CC"⟩, fun _ => true,
   none, none, none, none, none, none, none, none, none, none, none⟩

/-- A filesystem in which no folder exists and every path is relative. -/
def fsEnvMissing : FsEnv :=
  ⟨fun _ => false, fun _ => false, fun a b => a ++ "/" ++ b,
   "/repo/PythonExample", "/tmp"⟩

/-- A filesystem in which every folder exists and every path is relative. -/
def fsEnvPresent : FsEnv :=
  ⟨fun _ => false, fun _ => true, fun a b => a ++ "/" ++ b,
   "/repo/PythonExample", "/tmp"⟩

end A1052

namespace A1052

/-- C2: if the resolved SDK dependency folder does not exist,
`load_sdk_dlls` raises a `FileNotFoundError`, and no `clr.AddReference`
event — the only way the script references an SDK binary — occurs before
that failure is raised. -/
theorem load_sdk_dlls_missing_folder (env : FsEnv) (p : String)
    (h : env.pathExists (resolvedPath env p) = false) :
    (∃ m, (load_sdk_dlls env p).2 = some (LoadExn.fileNotFoundError m)) ∧
    (∀ d, LEv.addReference d ∉ (load_sdk_dlls env p).1) := by
  constructor
  · exact ⟨"Dependencies directory not found: " ++ resolvedPath env p,
      by simp [load_sdk_dlls, h]⟩
  · intro d hd
    by_cases ha : env.isAbs p <;> simp [load_sdk_dlls, h, ha] at hd

/-- Witness for C2 at a concrete missing folder. -/
theorem load_sdk_dlls_missing_folder_witness :
    (∃ m, (load_sdk_dlls fsEnvMissing "..\\sdk").2 = some (LoadExn.fileNotFoundError m)) ∧
    (∀ d, LEv.addReference d ∉ (load_sdk_dlls fsEnvMissing "..\\sdk").1) :=
  load_sdk_dlls_missing_folder fsEnvMissing "..\\sdk" rfl

/-- C10: a relative `sdk_folder_path` is resolved by joining it to the
directory containing the script file, a warning is logged first, the
existence check and the DLL references use the resolved path, the result
never depends on the process working directory, and an absolute path is
used unchanged. -/
theorem load_sdk_dlls_relative_path (env : FsEnv) (p : String)
    (h : env.isAbs p = false) :
    resolvedPath env p = env.join env.scriptDir p ∧
    (load_sdk_dlls env p).1.head? =
      some (LEv.logWarning ("SDK folder path is relative: " ++ p
        ++ ". Trying to resolve it relative to the current file.")) ∧
    (∀ c, load_sdk_dlls (FsEnv.withCwd env c) p = load_sdk_dlls env p) ∧
    (env.pathExists (env.join env.scriptDir p) = false →
      (load_sdk_dlls env p).2 =
        some (LoadExn.fileNotFoundError ("Dependencies directory not found: "
          ++ env.join env.scriptDir p))) ∧
    (env.pathExists (env.join env.scriptDir p) = true →
      LEv.addReference (env.join (env.join env.scriptDir p) "A10x_SDK.dll")
        ∈ (load_sdk_dlls env p).1) ∧
    (∀ q, env.isAbs q = true → resolvedPath env q = q) := by
  refine ⟨by simp [resolvedPath, h], ?_, fun c => rfl, ?_, ?_, fun q hq => by simp [resolvedPath, hq]⟩
  · by_cases he : env.pathExists (resolvedPath env p) <;>
      simp [load_sdk_dlls, h, he]
  · intro he
    simp [load_sdk_dlls, resolvedPath, h, he]
  · intro he
    simp [load_sdk_dlls, resolvedPath, h, he]

/-- Witness for C10 at a concrete relative path. -/
theorem load_sdk_dlls_relative_path_witness :
    (load_sdk_dlls fsEnvPresent "..\\sdk").1.head? =
      some (LEv.logWarning ("SDK folder path is relative: " ++ "..\\sdk"
        ++ ". Trying to resolve it relative to the current file.")) :=
  (load_sdk_dlls_relative_path fsEnvPresent "..\\sdk" rfl).2.1

/-- C3: when reflection succeeds and the rendered version string compares
lexically below the required minimum, `check_sdk_version` logs the failure
and returns `none`; at module level the script then logs a warning and
continues (the module step is a total function of the environment). -/
theorem check_sdk_version_below_required (env : VersionEnv) (req : String)
    (h1 : env.reflectionExn = none)
    (h2 : pyStrLt (version_str env) req = true) :
    (check_sdk_version env req).2 = none ∧
    VEv.logError ("Version check failed: " ++ ("SDK version " ++ version_str env
      ++ " is below required " ++ req)) ∈ (check_sdk_version env req).1 ∧
    (pyStrLt (version_str env) "1.0.0" = true →
      module_version_check env =
        (check_sdk_version env "1.0.0").1
          ++ [VEv.logWarning "Cannot verify SDK version. Proceeding with caution..."]) := by
  refine ⟨?_, ?_, ?_⟩
  · simp [check_sdk_version, check_sdk_version_body, h1, h2]
  · simp [check_sdk_version, check_sdk_version_body, h1, h2]
  · intro h3
    simp [module_version_check, check_sdk_version, check_sdk_version_body, h1, h3]

/-- Witness for C3 at version 0.9.9 against required 1.0.0. -/
theorem check_sdk_version_below_required_witness :
    (check_sdk_version ⟨none, 0, 9, 9⟩ "1.0.0").2 = none :=
  (check_sdk_version_below_required ⟨none, 0, 9, 9⟩ "1.0.0" rfl (by decide)).1

/-- C7: the version check uses lexical string comparison, not numeric
component-wise comparison: version 10.0.0 exceeds 9.0.0 numerically, yet
the lexical comparison classifies it as below 9.0.0 and
`check_sdk_version` returns `none`. -/
theorem version_check_lexical_not_numeric :
    spec_numeric_version_lt 9 0 0 10 0 0 = true ∧
    pyStrLt (version_str ⟨none, 10, 0, 0⟩) "9.0.0" = true ∧
    (check_sdk_version ⟨none, 10, 0, 0⟩ "9.0.0").2 = none := by decide

/-- C9: `check_sdk_version` never propagates an exception: whatever the
try-block body does — return the version string, raise the deliberate
below-minimum exception, or fail in reflection — the wrapper either
returns the version string or logs the failure and returns `none`. -/
theorem check_sdk_version_never_propagates (env : VersionEnv) (req : String) :
    (∃ v, (check_sdk_version_body env req).2 = Except.ok v ∧
      (check_sdk_version env req).2 = some v) ∨
    (∃ m, (check_sdk_version_body env req).2 = Except.error m ∧
      (check_sdk_version env req).2 = none ∧
      VEv.logError ("Version check failed: " ++ m) ∈ (check_sdk_version env req).1) := by
  cases hb : (check_sdk_version_body env req).2 with
  | error m => exact Or.inr ⟨m, rfl, by simp [check_sdk_version, hb]⟩
  | ok v => exact Or.inl ⟨v, rfl, by simp [check_sdk_version, hb]⟩

/-- Everything succeeds except `SetGain`, which raises. -/
def envGainFails : SdkEnv :=
  ⟨true, none, ⟨"SN123", "AA:BB:CC"⟩, fun _ => true,
   none, some "gain failed", none, none, none, none, none, none, none, none, none⟩

/-- The SDK surface carries no attribute at all. -/
def envNoFeature : SdkEnv :=
  ⟨true, none, ⟨"SN123", "AA:BB:CC"⟩, fun _ => false,
   none, none, none, none, none, none, none, none, none, none, none⟩

/-- `Connect` raises and the cleanup `Disconnect` raises as well. -/
def envCleanupFails : SdkEnv :=
  ⟨true, none, ⟨"SN123", "AA:BB:CC"⟩, fun _ => true,
   some "connect failed", none, none, none, none, none, none, none, none, none,
   some "disconnect failed"⟩

/-- `Connect` raises; everything else, the cleanup included, succeeds. -/
def envConnectFails : SdkEnv :=
  ⟨true, none, ⟨"SN123", "AA:BB:CC"⟩, fun _ => true,
   some "connect failed", none, none, none, none, none, none, none, none, none, none⟩

/-- The device does not answer identification. -/
def envNoDevice : SdkEnv :=
  ⟨false, none, ⟨"SN123", "AA:BB:CC"⟩, fun _ => true,
   none, none, none, none, none, none, none, none, none, none, none⟩

end A1052

namespace A1052

/-- C1: whenever an exception is raised at any point inside the
connect/configure/acquire try block, the `finally` step still runs:
`Disconnect` occurs exactly once in the trace of `simple_example`. -/
theorem try_exception_disconnect_once (env : SdkEnv) (m : String)
    (hid : env.identifyDevice = true)
    (hinfo : env.getDeviceInfoExn = none)
    (hsg : has_feature env.features "SetGain" = true)
    (hexn : (runCalls (tryBodyCalls env)).2 = some m) :
    countEv (simple_example env).1 Ev.disconnect = 1 := by
  have hb := countEv_eq_zero (disconnect_not_in_body env)
  cases hd : env.disconnectExn with
  | none => simp [simple_example, hid, hinfo, hsg, hexn, hd, countEv_append, countEv, hb]
  | some d => simp [simple_example, hid, hinfo, hsg, hexn, hd, countEv_append, countEv, hb]

/-- Witness for C1: `SetGain` raises mid-sequence; `Disconnect` still
occurs exactly once. -/
theorem try_exception_disconnect_once_witness :
    countEv (simple_example envGainFails).1 Ev.disconnect = 1 :=
  try_exception_disconnect_once envGainFails "gain failed" rfl rfl rfl (by decide)

/-- C4: an attribute lookup that raises `AttributeError` makes
`has_feature` return `false`; and when the SDK surface lacks the required
`SetGain` feature, `simple_example` logs the error and returns `false`
with `Connect` never invoked. -/
theorem absent_feature_aborts (fs : String → Bool) (nm : String) (env : SdkEnv)
    (hga : getattr_A1052SDK fs nm = Except.error PyErr.attributeError)
    (hid : env.identifyDevice = true)
    (hinfo : env.getDeviceInfoExn = none)
    (hsg : env.features "SetGain" = false) :
    has_feature fs nm = false ∧
    (simple_example env).2 = Except.ok false ∧
    Ev.logError "Required feature SetGain is not available in this SDK version."
      ∈ (simple_example env).1 ∧
    Ev.connect ∉ (simple_example env).1 := by
  refine ⟨by simp [has_feature, hga], ?_, ?_, ?_⟩
  · simp [simple_example, has_feature, getattr_A1052SDK, hid, hinfo, hsg]
  · simp [simple_example, has_feature, getattr_A1052SDK, hid, hinfo, hsg]
  · simp [simple_example, has_feature, getattr_A1052SDK, hid, hinfo, hsg]

/-- Witness for C4 on an SDK surface with no attributes at all. -/
theorem absent_feature_aborts_witness :
    has_feature (fun _ => false) "SetGain" = false ∧
    (simple_example envNoFeature).2 = Except.ok false ∧
    Ev.connect ∉ (simple_example envNoFeature).1 :=
  ⟨(absent_feature_aborts (fun _ => false) "SetGain" envNoFeature rfl rfl rfl rfl).1,
   (absent_feature_aborts (fun _ => false) "SetGain" envNoFeature rfl rfl rfl rfl).2.1,
   (absent_feature_aborts (fun _ => false) "SetGain" envNoFeature rfl rfl rfl rfl).2.2.2⟩

/-- C5 counterexample: `Connect` raises inside the sequence and the
cleanup `Disconnect` also raises; the body exception is caught and logged,
but `simple_example` does not return `False` — the cleanup exception
propagates instead, refuting the claim as stated. -/
theorem seq_exception_not_returned_false :
    (runCalls (tryBodyCalls envCleanupFails)).2 = some "connect failed" ∧
    Ev.logError ("Error during operation: " ++ "connect failed")
      ∈ (simple_example envCleanupFails).1 ∧
    (simple_example envCleanupFails).2 = Except.error "disconnect failed" ∧
    (simple_example envCleanupFails).2 ≠ Except.ok false := by decide

/-- C5 (amended): every exception raised during the connect/configure/
acquire sequence is caught and logged as an error and does not itself
propagate; when the final `Disconnect` succeeds, `simple_example` returns
`False`, and when `Disconnect` itself raises, that cleanup exception
propagates instead. -/
theorem seq_exception_caught_and_logged (env : SdkEnv) (m : String)
    (hid : env.identifyDevice = true)
    (hinfo : env.getDeviceInfoExn = none)
    (hsg : has_feature env.features "SetGain" = true)
    (hexn : (runCalls (tryBodyCalls env)).2 = some m) :
    Ev.logError ("Error during operation: " ++ m) ∈ (simple_example env).1 ∧
    (env.disconnectExn = none → (simple_example env).2 = Except.ok false) ∧
    (∀ d, env.disconnectExn = some d → (simple_example env).2 = Except.error d) := by
  refine ⟨?_, ?_, ?_⟩
  · cases hd : env.disconnectExn with
    | none => simp [simple_example, hid, hinfo, hsg, hexn, hd]
    | some d => simp [simple_example, hid, hinfo, hsg, hexn, hd]
  · intro hd
    simp [simple_example, hid, hinfo, hsg, hexn, hd]
  · intro d hd
    simp [simple_example, hid, hinfo, hsg, hexn, hd]

/-- Witness for the amended C5: `Connect` raises, the cleanup succeeds;
the exception is logged and `simple_example` returns `False`. -/
theorem seq_exception_caught_and_logged_witness :
    Ev.logError ("Error during operation: " ++ "connect failed")
      ∈ (simple_example envConnectFails).1 ∧
    (simple_example envConnectFails).2 = Except.ok false :=
  ⟨(seq_exception_caught_and_logged envConnectFails "connect failed"
      rfl rfl rfl (by decide)).1,
   (seq_exception_caught_and_logged envConnectFails "connect failed"
      rfl rfl rfl (by decide)).2.1 rfl⟩

/-- C6 counterexample: when device identification fails, `simple_example`
returns `False` on an error path on which `Disconnect` is never invoked,
refuting the claim that a final `Disconnect` step is attempted on every
error path. -/
theorem identify_failure_skips_disconnect :
    envNoDevice.identifyDevice = false ∧
    (simple_example envNoDevice).2 = Except.ok false ∧
    Ev.disconnect ∉ (simple_example envNoDevice).1 := by decide

/-- C6 (amended): the final `Disconnect` cleanup step is attempted on
every path that enters the try block, whichever exception occurs there;
but the early error returns that precede the try block — identification
failure, a `GetDeviceInfo` exception, and the missing-required-feature
return — exit without `Disconnect` ever being invoked. -/
theorem disconnect_iff_try_entered (env : SdkEnv) :
    (env.identifyDevice = false →
      (simple_example env).2 = Except.ok false ∧
      Ev.disconnect ∉ (simple_example env).1) ∧
    (∀ m, env.identifyDevice = true → env.getDeviceInfoExn = some m →
      (simple_example env).2 = Except.error m ∧
      Ev.disconnect ∉ (simple_example env).1) ∧
    (env.identifyDevice = true → env.getDeviceInfoExn = none →
      has_feature env.features "SetGain" = false →
      (simple_example env).2 = Except.ok false ∧
      Ev.disconnect ∉ (simple_example env).1) ∧
    (env.identifyDevice = true → env.getDeviceInfoExn = none →
      has_feature env.features "SetGain" = true →
      Ev.disconnect ∈ (simple_example env).1) := by
  refine ⟨?_, ?_, ?_, ?_⟩
  · intro hid
    simp [simple_example, hid]
  · intro m hid hinfo
    simp [simple_example, hid, hinfo]
  · intro hid hinfo hsg
    simp [simple_example, hid, hinfo, hsg]
  · intro hid hinfo hsg
    cases hb : (runCalls (tryBodyCalls env)).2 with
    | none =>
      cases hd : env.disconnectExn with
      | none => simp [simple_example, hid, hinfo, hsg, hb, hd]
      | some d => simp [simple_example, hid, hinfo, hsg, hb, hd]
    | some m =>
      cases hd : env.disconnectExn with
      | none => simp [simple_example, hid, hinfo, hsg, hb, hd]
      | some d => simp [simple_example, hid, hinfo, hsg, hb, hd]

/-- Witness for the amended C6: on the all-success environment the try
block is entered and `Disconnect` appears in the trace. -/
theorem disconnect_iff_try_entered_witness :
    Ev.disconnect ∈ (simple_example envAllOk).1 :=
  (disconnect_iff_try_entered envAllOk).2.2.2 rfl rfl rfl

/-- C8: on the success path `simple_example` performs the SDK calls in the
fixed source order — identification, device info, SDK creation, the
`SetGain` feature probe, `Connect`, the five configuration calls, callback
registration, `StartAscanSingleTransmitter`, the fixed 5-second wait,
`StopAcquisition`, callback unregistration, then `Disconnect` — and
returns `True`. -/
theorem success_path_call_order (env : SdkEnv)
    (hid : env.identifyDevice = true)
    (hinfo : env.getDeviceInfoExn = none)
    (hsg : env.features "SetGain" = true)
    (h1 : env.connectExn = none) (h2 : env.setGainExn = none)
    (h3 : env.setAscanAveragingExn = none)
    (h4 : env.setPulseRepetitionRateExn = none)
    (h5 : env.setQuadro8x4TransmitterExn = none)
    (h6 : env.setSingle8x4TransmitterExn = none)
    (h7 : env.subscribeExn = none) (h8 : env.startExn = none)
    (h9 : env.stopExn = none) (h10 : env.unsubscribeExn = none)
    (h11 : env.disconnectExn = none) :
    simple_example env =
      ([Ev.identifyDevice, Ev.getDeviceInfo,
        Ev.logInfo ("Connected to device: Serial=" ++ env.deviceInfo.serial
          ++ ", MAC=" ++ env.deviceInfo.mac),
        Ev.createSdk, Ev.hasFeatureCheck "SetGain",
        Ev.connect, Ev.logInfo "Connected to device",
        Ev.setGain 10, Ev.setAscanAveraging 1, Ev.setPulseRepetitionRate 3,
        Ev.setQuadro8x4Transmitter 0, Ev.setSingle8x4Transmitter 0,
        Ev.subscribeAscanDataReceived, Ev.startAscanSingleTransmitter,
        Ev.logInfo "Started data acquisition...", Ev.sleep 5,
        Ev.stopAcquisition, Ev.logInfo "Stopped data acquisition",
        Ev.unsubscribeAscanDataReceived,
        Ev.disconnect, Ev.logInfo "Disconnected from device"], Except.ok true) := by
  simp [simple_example, tryBodyCalls, runCalls, has_feature, getattr_A1052SDK,
    hid, hinfo, hsg, h1, h2, h3, h4, h5, h6, h7, h8, h9, h10, h11]

/-- Witness for C8 on the all-success environment. -/
theorem success_path_call_order_witness :
    simple_example envAllOk =
      ([Ev.identifyDevice, Ev.getDeviceInfo,
        Ev.logInfo ("Connected to device: Serial=" ++ "SN123"
          ++ ", MAC=" ++ "AA:BB:CC"),
        Ev.createSdk, Ev.hasFeatureCheck "SetGain",
        Ev.connect, Ev.logInfo "Connected to device",
        Ev.setGain 10, Ev.setAscanAveraging 1, Ev.setPulseRepetitionRate 3,
        Ev.setQuadro8x4Transmitter 0, Ev.setSingle8x4Transmitter 0,
        Ev.subscribeAscanDataReceived, Ev.startAscanSingleTransmitter,
        Ev.logInfo "Started data acquisition...", Ev.sleep 5,
        Ev.stopAcquisition, Ev.logInfo "Stopped data acquisition",
        Ev.unsubscribeAscanDataReceived,
        Ev.disconnect, Ev.logInfo "Disconnected from device"], Except.ok true) :=
  success_path_call_order envAllOk rfl rfl rfl rfl rfl rfl rfl rfl rfl rfl rfl rfl rfl rfl

end A1052
